import Mathlib

/-!
Verification of the advisor API of the Catan-EPQ repository
(catanatron/web/advisor_api.py): the board topology builder
(create_custom_board), the partial state reconstructor
(create_game_from_advisor_request), the advisor endpoint and the
explanation generator, shallowly embedded in Lean.

External collaborators of the file under verification (the rules-engine
enumerations, the node/edge allocator get_nodes_and_edges, the static
adjacency graph) are modelled as parameters or, where the spec fixes
them, as definitions marked "Modelled from the spec".
-/

namespace Advisor

/-- Player colors, the Color enumeration used by advisor_api.py
(RED, BLUE, ORANGE, WHITE are the four seat colors the reconstructor uses). -/
inductive Color
  | RED
  | BLUE
  | ORANGE
  | WHITE
deriving DecidableEq, Repr

/-- `colors = [Color.RED, Color.BLUE, Color.ORANGE, Color.WHITE][:num_players]` and
`color_to_index = {color: i for i, color in enumerate(colors)}`: the fixed
deterministic seating order of create_game_from_advisor_request. -/
def colorToIndex : Color → Nat
  | .RED => 0
  | .BLUE => 1
  | .ORANGE => 2
  | .WHITE => 3

/-- `color.value` strings, used as keys of the victory-point snapshot. -/
def colorValue : Color → String
  | .RED => "RED"
  | .BLUE => "BLUE"
  | .ORANGE => "ORANGE"
  | .WHITE => "WHITE"

/-- The five resource kinds (WOOD, BRICK, SHEEP, WHEAT, ORE). -/
inductive Res
  | WOOD
  | BRICK
  | SHEEP
  | WHEAT
  | ORE
deriving DecidableEq, Repr

/-- RESOURCE_MAP of advisor_api.py; `.get` on a Python dict returns
None for an unrecognized key, hence the `none` default branch. -/
def RESOURCE_MAP : String → Option Res
  | "WOOD" => some .WOOD
  | "BRICK" => some .BRICK
  | "SHEEP" => some .SHEEP
  | "WHEAT" => some .WHEAT
  | "ORE" => some .ORE
  | _ => none

/-- The five development-card kinds. -/
inductive DevCard
  | KNIGHT
  | VICTORY_POINT
  | ROAD_BUILDING
  | YEAR_OF_PLENTY
  | MONOPOLY
deriving DecidableEq, Repr

/-- DEV_CARD_MAP of advisor_api.py (identity on the five recognized names,
membership test fails on anything else). -/
def DEV_CARD_MAP : String → Option DevCard
  | "KNIGHT" => some .KNIGHT
  | "VICTORY_POINT" => some .VICTORY_POINT
  | "ROAD_BUILDING" => some .ROAD_BUILDING
  | "YEAR_OF_PLENTY" => some .YEAR_OF_PLENTY
  | "MONOPOLY" => some .MONOPOLY
  | _ => none

/-- Building kinds SETTLEMENT and CITY. -/
inductive Building
  | SETTLEMENT
  | CITY
deriving DecidableEq, Repr

/-- The keys of the per-player slice of the `player_state` dict that the
reconstructor's override loops read and write: `P{i}_` is modelled by a
player index, the key suffix by this field type. -/
inductive PSField
  | SETTLEMENTS_AVAILABLE
  | CITIES_AVAILABLE
  | ROADS_AVAILABLE
  | VICTORY_POINTS
  | ACTUAL_VICTORY_POINTS
  | IN_HAND (r : Res)
  | DEV_IN_HAND (d : DevCard)
  | PLAYED_KNIGHT
deriving DecidableEq

/-- The slice of game.state that create_game_from_advisor_request's override
loops touch: board.buildings, state.buildings_by_color,
board.board_buildable_ids, board.roads and the player_state dict. -/
structure GState where
  buildings : Nat → Option (Color × Building)
  buildingsByColor : Color → Building → List Nat
  boardBuildableIds : Finset Nat
  roads : Nat × Nat → Option Color
  playerState : Nat → PSField → Int

/-- One write `player_state[f"P{i}_{f}"] = v` to the player-state dict. -/
def updPS (ps : Nat → PSField → Int) (i : Nat) (f : PSField) (v : Int) :
    Nat → PSField → Int :=
  fun j g => if j = i ∧ g = f then v else ps j g

theorem updPS_apply (ps : Nat → PSField → Int) (i : Nat) (f : PSField) (v : Int)
    (j : Nat) (g : PSField) :
    updPS ps i f v j g = if j = i ∧ g = f then v else ps j g := rfl

/-- One element of the `buildings` list of an advisor request. -/
structure BuildingOverride where
  node_id : Nat
  color : Color
  building : String

/-- One iteration of the buildings loop of create_game_from_advisor_request:
`building_type = SETTLEMENT if building_info["building"] == "SETTLEMENT" else CITY`,
direct board write, discard of the node and of its STATIC_GRAPH neighbors from
board_buildable_ids, stock decrement and the two victory-point increments.
The external static adjacency graph is the parameter `nb`. -/
def applyBuilding (nb : Nat → List Nat) (s : GState) (b : BuildingOverride) : GState :=
  let building_type : Building := if b.building = "SETTLEMENT" then .SETTLEMENT else .CITY
  let buildings1 : Nat → Option (Color × Building) :=
    fun n => if n = b.node_id then some (b.color, building_type) else s.buildings n
  let byColor1 : Color → Building → List Nat :=
    fun c t =>
      if c = b.color ∧ t = building_type then s.buildingsByColor c t ++ [b.node_id]
      else s.buildingsByColor c t
  let buildable1 : Finset Nat :=
    (nb b.node_id).foldl (fun acc n => acc.erase n) (s.boardBuildableIds.erase b.node_id)
  let i := colorToIndex b.color
  let ps0 := s.playerState
  let ps3 :=
    if building_type = .SETTLEMENT then
      let ps1 := updPS ps0 i .SETTLEMENTS_AVAILABLE (ps0 i .SETTLEMENTS_AVAILABLE - 1)
      let ps2 := updPS ps1 i .VICTORY_POINTS (ps1 i .VICTORY_POINTS + 1)
      updPS ps2 i .ACTUAL_VICTORY_POINTS (ps2 i .ACTUAL_VICTORY_POINTS + 1)
    else
      let ps1 := updPS ps0 i .CITIES_AVAILABLE (ps0 i .CITIES_AVAILABLE - 1)
      let ps2 := updPS ps1 i .VICTORY_POINTS (ps1 i .VICTORY_POINTS + 2)
      updPS ps2 i .ACTUAL_VICTORY_POINTS (ps2 i .ACTUAL_VICTORY_POINTS + 2)
  { buildings := buildings1
    buildingsByColor := byColor1
    boardBuildableIds := buildable1
    roads := s.roads
    playerState := ps3 }

/-- The whole buildings loop. -/
def applyBuildings (nb : Nat → List Nat) (s : GState) (bs : List BuildingOverride) : GState :=
  bs.foldl (applyBuilding nb) s

/-- One element of the `roads` list of an advisor request. -/
structure RoadOverride where
  edge_id : Nat × Nat
  color : Color

/-- One iteration of the roads loop of create_game_from_advisor_request:
the two directional dict writes `roads[edge_id]` and `roads[(e1, e0)]`
(both with the same value, merged into one conditional) and the
ROADS_AVAILABLE decrement. -/
def applyRoad (s : GState) (r : RoadOverride) : GState :=
  let roads1 : Nat × Nat → Option Color :=
    fun e =>
      if e = r.edge_id ∨ e = (r.edge_id.2, r.edge_id.1) then some r.color else s.roads e
  let i := colorToIndex r.color
  { s with
    roads := roads1
    playerState := updPS s.playerState i .ROADS_AVAILABLE (s.playerState i .ROADS_AVAILABLE - 1) }

/-- The whole roads loop. -/
def applyRoads (s : GState) (rs : List RoadOverride) : GState :=
  rs.foldl applyRoad s

/-- The player_resources loop: `if resource_str in RESOURCE_MAP:` then write
the `_IN_HAND` key, otherwise the iteration does nothing. `i` is the advised
player's index (p_key). -/
def applyPlayerResources (s : GState) (i : Nat) (player_resources : List (String × Int)) :
    GState :=
  player_resources.foldl
    (fun st kv =>
      match RESOURCE_MAP kv.1 with
      | some r => { st with playerState := updPS st.playerState i (.IN_HAND r) kv.2 }
      | none => st)
    s

/-- The player_dev_cards loop: `if card_type in DEV_CARD_MAP:` then write the
`_IN_HAND` key, otherwise the iteration does nothing. -/
def applyPlayerDevCards (s : GState) (i : Nat) (player_dev_cards : List (String × Int)) :
    GState :=
  player_dev_cards.foldl
    (fun st kv =>
      match DEV_CARD_MAP kv.1 with
      | some d => { st with playerState := updPS st.playerState i (.DEV_IN_HAND d) kv.2 }
      | none => st)
    s

/-- A concrete fresh state used to instantiate theorems: empty board, the
standard starting stock (5 settlements, 4 cities, 15 roads), all counters 0. -/
def S0 : GState where
  buildings := fun _ => none
  buildingsByColor := fun _ _ => []
  boardBuildableIds := ∅
  roads := fun _ => none
  playerState := fun _ f =>
    match f with
    | .SETTLEMENTS_AVAILABLE => 5
    | .CITIES_AVAILABLE => 4
    | .ROADS_AVAILABLE => 15
    | _ => 0

theorem applyBuilding_buildings_self (nb : Nat → List Nat) (s : GState)
    (b : BuildingOverride) :
    (applyBuilding nb s b).buildings b.node_id
      = some (b.color, if b.building = "SETTLEMENT" then .SETTLEMENT else .CITY) := by
  by_cases hb : b.building = "SETTLEMENT" <;> simp [applyBuilding, hb]

theorem applyBuilding_playerState_self (nb : Nat → List Nat) (s : GState)
    (b : BuildingOverride) (f : PSField) :
    (applyBuilding nb s b).playerState (colorToIndex b.color) f =
      if b.building = "SETTLEMENT" then
        match f with
        | .SETTLEMENTS_AVAILABLE => s.playerState (colorToIndex b.color) f - 1
        | .VICTORY_POINTS => s.playerState (colorToIndex b.color) f + 1
        | .ACTUAL_VICTORY_POINTS => s.playerState (colorToIndex b.color) f + 1
        | _ => s.playerState (colorToIndex b.color) f
      else
        match f with
        | .CITIES_AVAILABLE => s.playerState (colorToIndex b.color) f - 1
        | .VICTORY_POINTS => s.playerState (colorToIndex b.color) f + 2
        | .ACTUAL_VICTORY_POINTS => s.playerState (colorToIndex b.color) f + 2
        | _ => s.playerState (colorToIndex b.color) f := by
  by_cases hb : b.building = "SETTLEMENT" <;>
    cases f <;> simp [applyBuilding, updPS, hb]

theorem applyBuilding_playerState_other (nb : Nat → List Nat) (s : GState)
    (b : BuildingOverride) (j : Nat) (hj : j ≠ colorToIndex b.color) (f : PSField) :
    (applyBuilding nb s b).playerState j f = s.playerState j f := by
  by_cases hb : b.building = "SETTLEMENT" <;> simp [applyBuilding, updPS, hb, hj]

theorem colorToIndex_injective (c c' : Color) (h : c ≠ c') :
    colorToIndex c ≠ colorToIndex c' := by
  cases c <;> cases c' <;> simp_all [colorToIndex]

/-- C1: a SETTLEMENT building override places (color, SETTLEMENT) at the node,
decrements settlement stock by 1 and adds 1 to both victory-point counters;
a CITY override decrements city stock by 1 and adds 2 to both counters;
every other player's counters are untouched; and seeding two settlements and
one city for one seat of a 2-player game yields actual victory points 4 for
that seat and 0 for the other, settlement stock down 2 and city stock down 1. -/
theorem claim1_building_override_accounting
    (nb : Nat → List Nat) (s : GState) (b : BuildingOverride)
    (s0 : GState) (cA cB : Color) (v1 v2 v3 : Nat)
    (hAB : cA ≠ cB)
    (hA0 : s0.playerState (colorToIndex cA) .ACTUAL_VICTORY_POINTS = 0)
    (hB0 : s0.playerState (colorToIndex cB) .ACTUAL_VICTORY_POINTS = 0) :
    (b.building = "SETTLEMENT" →
      (applyBuilding nb s b).buildings b.node_id = some (b.color, .SETTLEMENT) ∧
      (applyBuilding nb s b).playerState (colorToIndex b.color) .SETTLEMENTS_AVAILABLE
        = s.playerState (colorToIndex b.color) .SETTLEMENTS_AVAILABLE - 1 ∧
      (applyBuilding nb s b).playerState (colorToIndex b.color) .VICTORY_POINTS
        = s.playerState (colorToIndex b.color) .VICTORY_POINTS + 1 ∧
      (applyBuilding nb s b).playerState (colorToIndex b.color) .ACTUAL_VICTORY_POINTS
        = s.playerState (colorToIndex b.color) .ACTUAL_VICTORY_POINTS + 1) ∧
    (b.building = "CITY" →
      (applyBuilding nb s b).buildings b.node_id = some (b.color, .CITY) ∧
      (applyBuilding nb s b).playerState (colorToIndex b.color) .CITIES_AVAILABLE
        = s.playerState (colorToIndex b.color) .CITIES_AVAILABLE - 1 ∧
      (applyBuilding nb s b).playerState (colorToIndex b.color) .VICTORY_POINTS
        = s.playerState (colorToIndex b.color) .VICTORY_POINTS + 2 ∧
      (applyBuilding nb s b).playerState (colorToIndex b.color) .ACTUAL_VICTORY_POINTS
        = s.playerState (colorToIndex b.color) .ACTUAL_VICTORY_POINTS + 2) ∧
    (∀ j, j ≠ colorToIndex b.color → ∀ f,
      (applyBuilding nb s b).playerState j f = s.playerState j f) ∧
    ((applyBuildings nb s0
        [⟨v1, cA, "SETTLEMENT"⟩, ⟨v2, cA, "SETTLEMENT"⟩, ⟨v3, cA, "CITY"⟩]).playerState
          (colorToIndex cA) .ACTUAL_VICTORY_POINTS = 4 ∧
     (applyBuildings nb s0
        [⟨v1, cA, "SETTLEMENT"⟩, ⟨v2, cA, "SETTLEMENT"⟩, ⟨v3, cA, "CITY"⟩]).playerState
          (colorToIndex cB) .ACTUAL_VICTORY_POINTS = 0 ∧
     (applyBuildings nb s0
        [⟨v1, cA, "SETTLEMENT"⟩, ⟨v2, cA, "SETTLEMENT"⟩, ⟨v3, cA, "CITY"⟩]).playerState
          (colorToIndex cA) .SETTLEMENTS_AVAILABLE
        = s0.playerState (colorToIndex cA) .SETTLEMENTS_AVAILABLE - 2 ∧
     (applyBuildings nb s0
        [⟨v1, cA, "SETTLEMENT"⟩, ⟨v2, cA, "SETTLEMENT"⟩, ⟨v3, cA, "CITY"⟩]).playerState
          (colorToIndex cA) .CITIES_AVAILABLE
        = s0.playerState (colorToIndex cA) .CITIES_AVAILABLE - 1) := by
  have hBA := colorToIndex_injective cB cA (fun h => hAB h.symm)
  refine ⟨?_, ?_, ?_, ?_⟩
  · intro hb
    exact ⟨by simpa [hb] using applyBuilding_buildings_self nb s b,
      by simpa [hb] using applyBuilding_playerState_self nb s b .SETTLEMENTS_AVAILABLE,
      by simpa [hb] using applyBuilding_playerState_self nb s b .VICTORY_POINTS,
      by simpa [hb] using applyBuilding_playerState_self nb s b .ACTUAL_VICTORY_POINTS⟩
  · intro hb
    have hb' : b.building ≠ "SETTLEMENT" := by simp [hb]
    exact ⟨by simpa [hb'] using applyBuilding_buildings_self nb s b,
      by simpa [hb'] using applyBuilding_playerState_self nb s b .CITIES_AVAILABLE,
      by simpa [hb'] using applyBuilding_playerState_self nb s b .VICTORY_POINTS,
      by simpa [hb'] using applyBuilding_playerState_self nb s b .ACTUAL_VICTORY_POINTS⟩
  · exact fun j hj f => applyBuilding_playerState_other nb s b j hj f
  · refine ⟨?_, ?_, ?_, ?_⟩ <;>
      simp [applyBuildings, applyBuilding, updPS, hBA, hA0, hB0] <;> omega
/-- C1 witness at a concrete fresh 2-player state. -/
theorem claim1_building_override_accounting_witness :
    (applyBuildings (fun _ => []) S0
      [⟨1, .RED, "SETTLEMENT"⟩, ⟨2, .RED, "SETTLEMENT"⟩, ⟨3, .RED, "CITY"⟩]).playerState
        0 .ACTUAL_VICTORY_POINTS = 4 ∧
    (applyBuildings (fun _ => []) S0
      [⟨1, .RED, "SETTLEMENT"⟩, ⟨2, .RED, "SETTLEMENT"⟩, ⟨3, .RED, "CITY"⟩]).playerState
        1 .ACTUAL_VICTORY_POINTS = 0 ∧
    (applyBuildings (fun _ => []) S0
      [⟨1, .RED, "SETTLEMENT"⟩, ⟨2, .RED, "SETTLEMENT"⟩, ⟨3, .RED, "CITY"⟩]).playerState
        0 .SETTLEMENTS_AVAILABLE = 5 - 2 ∧
    (applyBuildings (fun _ => []) S0
      [⟨1, .RED, "SETTLEMENT"⟩, ⟨2, .RED, "SETTLEMENT"⟩, ⟨3, .RED, "CITY"⟩]).playerState
        0 .CITIES_AVAILABLE = 4 - 1 := by
  have h := claim1_building_override_accounting (fun _ => []) S0
    ⟨1, .RED, "SETTLEMENT"⟩ S0 .RED .BLUE 1 2 3 (by decide) (by rfl) (by rfl)
  exact ⟨h.2.2.2.1, h.2.2.2.2.1, h.2.2.2.2.2.1, h.2.2.2.2.2.2⟩

theorem foldl_erase_eq_sdiff (l : List Nat) (s : Finset Nat) :
    l.foldl (fun acc n => acc.erase n) s = s \ l.toFinset := by
  induction l generalizing s with
  | nil => simp
  | cons a l ih =>
      rw [List.foldl_cons, ih]
      ext x
      simp [Finset.mem_sdiff, Finset.mem_erase]
      tauto

theorem applyBuilding_buildable (nb : Nat → List Nat) (s : GState) (b : BuildingOverride) :
    (applyBuilding nb s b).boardBuildableIds
      = s.boardBuildableIds \ insert b.node_id (nb b.node_id).toFinset := by
  have h : (applyBuilding nb s b).boardBuildableIds
      = (nb b.node_id).foldl (fun acc n => acc.erase n)
          (s.boardBuildableIds.erase b.node_id) := rfl
  rw [h, foldl_erase_eq_sdiff]
  ext x
  simp [Finset.mem_sdiff, Finset.mem_erase]
  tauto

/-- The set of vertices the buildings loop discards from board_buildable_ids:
each override's node together with its STATIC_GRAPH neighbors. -/
def blockedBy (nb : Nat → List Nat) (bs : List BuildingOverride) : Finset Nat :=
  bs.foldr (fun b acc => insert b.node_id (nb b.node_id).toFinset ∪ acc) ∅

theorem mem_blockedBy (nb : Nat → List Nat) (bs : List BuildingOverride) (v : Nat) :
    v ∈ blockedBy nb bs ↔ ∃ b ∈ bs, v = b.node_id ∨ v ∈ nb b.node_id := by
  induction bs with
  | nil => simp [blockedBy]
  | cons b bs ih =>
      have h : blockedBy nb (b :: bs)
          = insert b.node_id (nb b.node_id).toFinset ∪ blockedBy nb bs := rfl
      rw [h]
      simp only [Finset.mem_union, Finset.mem_insert, List.mem_toFinset, ih, List.mem_cons]
      constructor
      · rintro ((h1 | h2) | ⟨b', hb', hv⟩)
        · exact ⟨b, Or.inl rfl, Or.inl h1⟩
        · exact ⟨b, Or.inl rfl, Or.inr h2⟩
        · exact ⟨b', Or.inr hb', hv⟩
      · rintro ⟨b', hb' | hb', hv⟩
        · subst hb'
          exact Or.inl hv
        · exact Or.inr ⟨b', hb', hv⟩

theorem applyBuildings_buildable (nb : Nat → List Nat) (s : GState)
    (bs : List BuildingOverride) :
    (applyBuildings nb s bs).boardBuildableIds
      = s.boardBuildableIds \ blockedBy nb bs := by
  induction bs generalizing s with
  | nil => simp [applyBuildings, blockedBy]
  | cons b bs ih =>
      have h1 : applyBuildings nb s (b :: bs)
          = applyBuildings nb (applyBuilding nb s b) bs := rfl
      have h2 : blockedBy nb (b :: bs)
          = insert b.node_id (nb b.node_id).toFinset ∪ blockedBy nb bs := rfl
      rw [h1, ih, applyBuilding_buildable, h2]
      ext x
      simp [Finset.mem_sdiff]
      tauto

/-- C2: after the buildings loop, board_buildable_ids equals the initial
buildable set minus exactly the placed vertices and all their neighbors in
the static adjacency graph; every such vertex is excluded and no other
vertex is removed. -/
theorem claim2_buildable_set_after_reconstruction
    (nb : Nat → List Nat) (s : GState) (bs : List BuildingOverride)
    (hnodup : (bs.map (fun b => b.node_id)).Nodup) :
    (applyBuildings nb s bs).boardBuildableIds
      = s.boardBuildableIds \ blockedBy nb bs ∧
    (∀ v, v ∈ blockedBy nb bs ↔ ∃ b ∈ bs, v = b.node_id ∨ v ∈ nb b.node_id) ∧
    (∀ v ∈ blockedBy nb bs, v ∉ (applyBuildings nb s bs).boardBuildableIds) ∧
    (∀ v ∈ s.boardBuildableIds, v ∉ blockedBy nb bs →
      v ∈ (applyBuildings nb s bs).boardBuildableIds) := by
  have h := applyBuildings_buildable nb s bs
  refine ⟨h, fun v => mem_blockedBy nb bs v, ?_, ?_⟩ <;>
    intro v hv <;> simp [h, Finset.mem_sdiff, hv]

/-- C2 witness on a concrete board: node 1 placed, neighbor map n ↦ [n+1]. -/
theorem claim2_buildable_set_after_reconstruction_witness :
    ((([⟨1, Color.RED, "SETTLEMENT"⟩] : List BuildingOverride).map
        (fun b => b.node_id)).Nodup) ∧
    (applyBuildings (fun n => [n + 1])
        { S0 with boardBuildableIds := {0, 1, 2, 3} }
        [⟨1, .RED, "SETTLEMENT"⟩]).boardBuildableIds
      = ({0, 1, 2, 3} : Finset Nat) \ blockedBy (fun n => [n + 1])
          [⟨1, .RED, "SETTLEMENT"⟩] := by
  have hnd : (([⟨1, Color.RED, "SETTLEMENT"⟩] : List BuildingOverride).map
      (fun b => b.node_id)).Nodup := by simp
  exact ⟨hnd, (claim2_buildable_set_after_reconstruction (fun n => [n + 1])
    { S0 with boardBuildableIds := {0, 1, 2, 3} }
    [⟨1, .RED, "SETTLEMENT"⟩] hnd).1⟩

/-- The unordered vertex pair of a road edge (orientation-independent key). -/
def edgePair (e : Nat × Nat) : Finset Nat := {e.1, e.2}

theorem edgePair_swap (e : Nat × Nat) : edgePair (e.2, e.1) = edgePair e := by
  simp [edgePair, Finset.pair_comm]

theorem applyRoads_cons (s : GState) (r : RoadOverride) (rs : List RoadOverride) :
    applyRoads s (r :: rs) = applyRoads (applyRoad s r) rs := rfl

theorem applyRoad_roads_other (s : GState) (r : RoadOverride) (e : Nat × Nat)
    (h1 : e ≠ r.edge_id) (h2 : e ≠ (r.edge_id.2, r.edge_id.1)) :
    (applyRoad s r).roads e = s.roads e := by
  simp [applyRoad, h1, h2]

theorem applyRoads_roads_untouched (s : GState) (rs : List RoadOverride) (e : Nat × Nat)
    (h : ∀ r' ∈ rs, edgePair r'.edge_id ≠ edgePair e) :
    (applyRoads s rs).roads e = s.roads e ∧
    (applyRoads s rs).roads (e.2, e.1) = s.roads (e.2, e.1) := by
  induction rs generalizing s with
  | nil => exact ⟨rfl, rfl⟩
  | cons r rs ih =>
      have hr := h r (List.mem_cons_self r rs)
      have k1 : (applyRoad s r).roads e = s.roads e := by
        apply applyRoad_roads_other
        · intro hh; exact hr (by rw [hh])
        · intro hh; apply hr; rw [hh, edgePair_swap]
      have k2 : (applyRoad s r).roads (e.2, e.1) = s.roads (e.2, e.1) := by
        apply applyRoad_roads_other
        · intro hh
          apply hr
          rw [← hh]
          exact edgePair_swap e
        · intro hh
          apply hr
          have he : e = r.edge_id := by
            have := congrArg (fun p : Nat × Nat => (p.2, p.1)) hh
            simpa using this
          rw [he]
      have htail : ∀ r' ∈ rs, edgePair r'.edge_id ≠ edgePair e :=
        fun r' hr' => h r' (List.mem_cons_of_mem r hr')
      rw [applyRoads_cons]
      obtain ⟨i1, i2⟩ := ih (applyRoad s r) htail
      exact ⟨i1.trans k1, i2.trans k2⟩

theorem applyRoads_mem (s : GState) (rs : List RoadOverride)
    (hnd : (rs.map (fun r => edgePair r.edge_id)).Nodup) :
    ∀ r ∈ rs,
      (applyRoads s rs).roads r.edge_id = some r.color ∧
      (applyRoads s rs).roads (r.edge_id.2, r.edge_id.1) = some r.color := by
  induction rs generalizing s with
  | nil => simp
  | cons r0 rs ih =>
      intro r hr
      have hnd' : (∀ x ∈ rs, ¬ edgePair x.edge_id = edgePair r0.edge_id) ∧
          ((rs.map (fun r => edgePair r.edge_id)).Nodup) := by simpa using hnd
      rcases List.mem_cons.mp hr with h | h
      · subst h
        have huntouched : ∀ r' ∈ rs, edgePair r'.edge_id ≠ edgePair r.edge_id :=
          fun r' hr' hh => hnd'.1 r' hr' hh
        obtain ⟨k1, k2⟩ := applyRoads_roads_untouched (applyRoad s r) rs r.edge_id huntouched
        rw [applyRoads_cons, k1, k2]
        constructor <;> simp [applyRoad]
      · exact ih (applyRoad s r0) hnd'.2 r h

theorem applyRoads_stock (s : GState) (rs : List RoadOverride) (i : Nat) :
    (applyRoads s rs).playerState i .ROADS_AVAILABLE
      = s.playerState i .ROADS_AVAILABLE
        - (rs.countP (fun r => colorToIndex r.color == i) : Int) := by
  induction rs generalizing s with
  | nil => simp [applyRoads]
  | cons r rs ih =>
      rw [applyRoads_cons, ih, List.countP_cons]
      by_cases hc : colorToIndex r.color = i <;>
        simp [applyRoad, updPS, hc] <;> omega

/-- C9 counterexample: with two overrides on the same edge, the later one
overwrites the earlier one's directional registrations, so it is not the
case that after reconstruction every override's edge maps to its own owner. -/
theorem claim9_counterexample :
    ¬ (∀ (s : GState) (rs : List RoadOverride), ∀ r ∈ rs,
        (applyRoads s rs).roads r.edge_id = some r.color ∧
        (applyRoads s rs).roads (r.edge_id.2, r.edge_id.1) = some r.color) := by
  intro h
  have := (h S0 [⟨(1, 2), .RED⟩, ⟨(1, 2), .BLUE⟩] ⟨(1, 2), .RED⟩ (by simp)).1
  simp [applyRoads, applyRoad, S0] at this

/-- C9 (amended): for every road-override list in which no edge occurs twice
in either orientation, after the roads loop both directional keys (a, b) and
(b, a) of every override map to its owner, and each player's remaining road
stock decreases by exactly the number of that player's road overrides
(1 per override). -/
theorem claim9_road_overrides (s : GState) (rs : List RoadOverride)
    (hnd : (rs.map (fun r => edgePair r.edge_id)).Nodup) :
    (∀ r ∈ rs,
      (applyRoads s rs).roads r.edge_id = some r.color ∧
      (applyRoads s rs).roads (r.edge_id.2, r.edge_id.1) = some r.color) ∧
    (∀ i, (applyRoads s rs).playerState i .ROADS_AVAILABLE
        = s.playerState i .ROADS_AVAILABLE
          - (rs.countP (fun r => colorToIndex r.color == i) : Int)) :=
  ⟨applyRoads_mem s rs hnd, fun i => applyRoads_stock s rs i⟩

/-- C9 witness: two roads of different owners on distinct edges. -/
theorem claim9_road_overrides_witness :
    ((([⟨(1, 2), Color.RED⟩, ⟨(3, 4), Color.BLUE⟩] : List RoadOverride).map
        (fun r => edgePair r.edge_id)).Nodup) ∧
    (applyRoads S0 [⟨(1, 2), .RED⟩, ⟨(3, 4), .BLUE⟩]).roads (2, 1) = some .RED ∧
    (applyRoads S0 [⟨(1, 2), .RED⟩, ⟨(3, 4), .BLUE⟩]).playerState
        0 .ROADS_AVAILABLE = 15 - 1 := by
  have hnd : (([⟨(1, 2), Color.RED⟩, ⟨(3, 4), Color.BLUE⟩] : List RoadOverride).map
      (fun r => edgePair r.edge_id)).Nodup := by
    simp [edgePair]
    decide
  have h := claim9_road_overrides S0 [⟨(1, 2), .RED⟩, ⟨(3, 4), .BLUE⟩] hnd
  refine ⟨hnd, (h.1 ⟨(1, 2), .RED⟩ (by simp)).2, ?_⟩
  rw [h.2 0]
  rfl

/-- C10 (implicit): any building token other than exactly "SETTLEMENT" is
treated as a CITY: the city is placed, city stock decremented, both counters
increased by 2, and settlement stock untouched. -/
theorem claim10_non_settlement_token_is_city
    (nb : Nat → List Nat) (s : GState) (b : BuildingOverride)
    (hb : b.building ≠ "SETTLEMENT") :
    (applyBuilding nb s b).buildings b.node_id = some (b.color, .CITY) ∧
    (applyBuilding nb s b).playerState (colorToIndex b.color) .CITIES_AVAILABLE
      = s.playerState (colorToIndex b.color) .CITIES_AVAILABLE - 1 ∧
    (applyBuilding nb s b).playerState (colorToIndex b.color) .VICTORY_POINTS
      = s.playerState (colorToIndex b.color) .VICTORY_POINTS + 2 ∧
    (applyBuilding nb s b).playerState (colorToIndex b.color) .ACTUAL_VICTORY_POINTS
      = s.playerState (colorToIndex b.color) .ACTUAL_VICTORY_POINTS + 2 ∧
    (applyBuilding nb s b).playerState (colorToIndex b.color) .SETTLEMENTS_AVAILABLE
      = s.playerState (colorToIndex b.color) .SETTLEMENTS_AVAILABLE :=
  ⟨by simpa [hb] using applyBuilding_buildings_self nb s b,
   by simpa [hb] using applyBuilding_playerState_self nb s b .CITIES_AVAILABLE,
   by simpa [hb] using applyBuilding_playerState_self nb s b .VICTORY_POINTS,
   by simpa [hb] using applyBuilding_playerState_self nb s b .ACTUAL_VICTORY_POINTS,
   by simpa [hb] using applyBuilding_playerState_self nb s b .SETTLEMENTS_AVAILABLE⟩

/-- C10 witness: the misspelled token "SETLEMENT" yields a CITY placement. -/
theorem claim10_non_settlement_token_is_city_witness :
    (("SETLEMENT" : String) ≠ "SETTLEMENT") ∧
    (applyBuilding (fun _ => []) S0 ⟨5, .BLUE, "SETLEMENT"⟩).buildings 5
      = some (Color.BLUE, Building.CITY) := by
  refine ⟨by decide, ?_⟩
  exact (claim10_non_settlement_token_is_city (fun _ => []) S0
    ⟨5, .BLUE, "SETLEMENT"⟩ (by decide)).1

/-- C6 evaluation: the hand and development-card override loops silently skip
an unrecognized key (the state is returned unchanged, no error is reported)
and still apply the remaining recognized overrides. -/
theorem claim6_unknown_token_silently_ignored :
    (∀ (s : GState) (i : Nat), applyPlayerResources s i [("GOLD", 3)] = s) ∧
    (∀ (s : GState) (i : Nat), applyPlayerDevCards s i [("SUPER_KNIGHT", 2)] = s) ∧
    (applyPlayerResources S0 0 [("GOLD", 3), ("WOOD", 2)]).playerState
        0 (.IN_HAND .WOOD) = 2 := by
  refine ⟨fun s i => rfl, fun s i => rfl, ?_⟩
  simp [applyPlayerResources, RESOURCE_MAP, updPS]

/-- Cube coordinate: a triple of integers (a Python 3-tuple). -/
abbrev Coord := Int × Int × Int

/-- The cube-coordinate zero-sum invariant. -/
def sumZero (c : Coord) : Prop := c.1 + c.2.1 + c.2.2 = 0

instance (c : Coord) : Decidable (sumZero c) := by unfold sumZero; infer_instance

/-- Modelled from the spec: the fixed six-way compass enumeration Direction of
the external map module, referenced by advisor_api.py as
`Direction[direction_str]`. -/
inductive Direction
  | EAST
  | SOUTHEAST
  | SOUTHWEST
  | WEST
  | NORTHWEST
  | NORTHEAST
deriving DecidableEq, Repr

/-- Modelled from the spec: the Python enum lookup `Direction[s]`, which
raises KeyError (here: `none`) on an unrecognized direction token. -/
def directionOfString : String → Option Direction
  | "EAST" => some .EAST
  | "SOUTHEAST" => some .SOUTHEAST
  | "SOUTHWEST" => some .SOUTHWEST
  | "WEST" => some .WEST
  | "NORTHWEST" => some .NORTHWEST
  | "NORTHEAST" => some .NORTHEAST
  | _ => none

/-- One land-tile descriptor of the request: coordinate, optional resource
token, optional dice number. -/
structure TileData where
  coordinate : Coord
  resource : Option String
  number : Option Int
deriving DecidableEq

/-- One port descriptor of the request: coordinate, direction token,
optional traded-resource token. -/
structure PortData where
  coordinate : Coord
  direction : String
  resource : Option String
deriving DecidableEq

/-- Board tiles (LandTile, Port, Water). The node and edge identifier
containers are the abstract types N and E produced by the external
allocator. -/
inductive Tile (N E : Type) where
  | land (id : Nat) (resource : Option Res) (number : Option Int) (nodes : N) (edges : E)
  | port (id : Nat) (resource : Option Res) (direction : Direction) (nodes : N) (edges : E)
  | water (nodes : N) (edges : E)

/-- Python tuple comparison on (c[0], c[1], c[2]): lexicographic order,
the sort key of create_custom_board. -/
def coordLe (a b : Coord) : Prop :=
  a.1 < b.1 ∨ (a.1 = b.1 ∧ (a.2.1 < b.2.1 ∨ (a.2.1 = b.2.1 ∧ a.2.2 ≤ b.2.2)))

instance : DecidableRel coordLe := fun a b => by unfold coordLe; infer_instance

/-- The comparison `sorted(tiles_data, key=...)` uses. -/
def tileLe (a b : TileData) : Prop := coordLe a.coordinate b.coordinate

instance : DecidableRel tileLe := fun a b => by unfold tileLe; infer_instance

/-- `sorted_tiles = sorted(tiles_data, key=lambda t: tuple(t["coordinate"]))`
(a stable sort by the lexicographic coordinate key). -/
def sortTiles (tiles_data : List TileData) : List TileData :=
  List.insertionSort tileLe tiles_data

/-- The first pass of create_custom_board: the loop over the sorted land-tile
descriptors, threading (all_tiles, node_autoinc, tile_autoinc). `g` is the
external allocator get_nodes_and_edges. Note the desert branch
(`resource is None`) stores neither resource nor number, and the resource
branch stores `RESOURCE_MAP.get(resource)`. -/
def landLoop {N E : Type}
    (g : (Coord → Option (Tile N E)) → Coord → Nat → N × E × Nat) :
    List TileData → ((Coord → Option (Tile N E)) × Nat × Nat) →
      (Coord → Option (Tile N E)) × Nat × Nat
  | [], acc => acc
  | t :: rest, acc =>
      let all_tiles := acc.1
      let node_autoinc := acc.2.1
      let tile_autoinc := acc.2.2
      let r := g all_tiles t.coordinate node_autoinc
      let land_tile : Tile N E :=
        match t.resource with
        | none => .land tile_autoinc none none r.1 r.2.1
        | some res => .land tile_autoinc (RESOURCE_MAP res) t.number r.1 r.2.1
      landLoop g rest
        (fun c => if c = t.coordinate then some land_tile else all_tiles c,
         r.2.2, tile_autoinc + 1)

/-- The land phase: sort, then run the loop from the empty map and zeroed
counters. -/
def landPhase {N E : Type}
    (g : (Coord → Option (Tile N E)) → Coord → Nat → N × E × Nat)
    (tiles_data : List TileData) : (Coord → Option (Tile N E)) × Nat × Nat :=
  landLoop g (sortTiles tiles_data) (fun _ => none, 0, 0)

/-- The second pass: the loop over port descriptors, threading
(all_tiles, node_autoinc, port_autoinc). `Direction[direction_str]` raises
KeyError on an unrecognized token, modelled as Except.error; the resource
token goes through `RESOURCE_MAP.get` and silently becomes none when
unrecognized. -/
def portLoop {N E : Type}
    (g : (Coord → Option (Tile N E)) → Coord → Nat → N × E × Nat) :
    List PortData → ((Coord → Option (Tile N E)) × Nat × Nat) →
      Except String ((Coord → Option (Tile N E)) × Nat × Nat)
  | [], acc => .ok acc
  | p :: rest, acc =>
      let all_tiles := acc.1
      let node_autoinc := acc.2.1
      let port_autoinc := acc.2.2
      let r := g all_tiles p.coordinate node_autoinc
      let fast_resource : Option Res :=
        match p.resource with
        | some s => RESOURCE_MAP s
        | none => none
      match directionOfString p.direction with
      | some dir =>
          portLoop g rest
            (fun c =>
              if c = p.coordinate then
                some (.port port_autoinc fast_resource dir r.1 r.2.1)
              else all_tiles c,
             r.2.2, port_autoinc + 1)
      | none => .error ("KeyError: " ++ p.direction)

/-- The fixed 18-cell outer-ring coordinate list of create_custom_board. -/
def water_coords : List Coord :=
  [(3, -3, 0), (2, -3, 1), (1, -3, 2), (0, -3, 3),
   (-1, -2, 3), (-2, -1, 3), (-3, 0, 3), (-3, 1, 2),
   (-3, 2, 1), (-3, 3, 0), (-2, 3, -1), (-1, 3, -2),
   (0, 3, -3), (1, 2, -3), (2, 1, -3), (3, 0, -3),
   (3, -1, -2), (3, -2, -1)]

/-- The third pass: for each ring coordinate, `if coord not in all_tiles:`
allocate nodes/edges and place a Water tile, otherwise leave the existing
tile untouched; threads (all_tiles, node_autoinc). -/
def waterLoop {N E : Type}
    (g : (Coord → Option (Tile N E)) → Coord → Nat → N × E × Nat) :
    List Coord → ((Coord → Option (Tile N E)) × Nat) →
      (Coord → Option (Tile N E)) × Nat
  | [], acc => acc
  | coord :: rest, acc =>
      let all_tiles := acc.1
      let node_autoinc := acc.2
      if (all_tiles coord).isNone then
        let r := g all_tiles coord node_autoinc
        waterLoop g rest
          (fun c => if c = coord then some (.water r.1 r.2.1) else all_tiles c, r.2.2)
      else
        waterLoop g rest acc

/-- create_custom_board of advisor_api.py: land pass over the sorted
descriptors, then ports, then water auto-fill of the outer ring; returns the
completed Coordinate→Tile map (the final CatanMap.from_tiles assembly is the
external library's). The external allocator get_nodes_and_edges is the
parameter `g`; every theorem below holds for an arbitrary allocator. -/
def createCustomBoard {N E : Type}
    (g : (Coord → Option (Tile N E)) → Coord → Nat → N × E × Nat)
    (tiles_data : List TileData) (ports_data : List PortData) :
    Except String (Coord → Option (Tile N E)) :=
  match portLoop g ports_data
      ((landPhase g tiles_data).1, (landPhase g tiles_data).2.1, 0) with
  | .error e => .error e
  | .ok mid => .ok (waterLoop g water_coords (mid.1, mid.2.1)).1

/-- A trivial concrete allocator (unit node/edge containers), used only to
instantiate theorems on concrete inputs. -/
def gU : (Coord → Option (Tile Unit Unit)) → Coord → Nat → Unit × Unit × Nat :=
  fun _ _ n => ((), (), n)

/-- C5 evaluation: a land descriptor or port descriptor whose resource token
is the unrecognized "GOLD" yields a successfully built board in which the
tile carries a None (desert-like) resource, instead of a validation error. -/
theorem claim5_unknown_resource_token_defaults_to_none :
    ((createCustomBoard gU [⟨(0, 0, 0), some "GOLD", some 5⟩] []).toOption.map
        (fun m => m (0, 0, 0)))
      = some (some (Tile.land 0 none (some 5) () ())) ∧
    ((createCustomBoard gU [] [⟨(3, -3, 0), "WEST", some "GOLD"⟩]).toOption.map
        (fun m => m (3, -3, 0)))
      = some (some (Tile.port 0 none Direction.WEST () ())) := by
  constructor <;> rfl

theorem landLoop_domain {N E : Type}
    (g : (Coord → Option (Tile N E)) → Coord → Nat → N × E × Nat)
    (l : List TileData) (acc : (Coord → Option (Tile N E)) × Nat × Nat) (c : Coord)
    (h : (((landLoop g l acc).1) c).isSome) :
    ((acc.1 c).isSome) ∨ ∃ t ∈ l, t.coordinate = c := by
  induction l generalizing acc with
  | nil => exact Or.inl h
  | cons t rest ih =>
      simp only [landLoop] at h
      rcases ih _ h with h' | ⟨t', ht', hc⟩
      · by_cases hc : c = t.coordinate
        · exact Or.inr ⟨t, List.mem_cons_self t rest, hc.symm⟩
        · left
          simpa [hc] using h'
      · exact Or.inr ⟨t', List.mem_cons_of_mem _ ht', hc⟩

theorem landLoop_untouched {N E : Type}
    (g : (Coord → Option (Tile N E)) → Coord → Nat → N × E × Nat)
    (l : List TileData) (acc : (Coord → Option (Tile N E)) × Nat × Nat) (c : Coord)
    (h : ∀ t ∈ l, t.coordinate ≠ c) :
    ((landLoop g l acc).1) c = acc.1 c := by
  induction l generalizing acc with
  | nil => rfl
  | cons t rest ih =>
      simp only [landLoop]
      rw [ih _ (fun t' ht' => h t' (List.mem_cons_of_mem _ ht'))]
      have hc : c ≠ t.coordinate := fun hh => h t (List.mem_cons_self t rest) hh.symm
      simp [hc]

theorem portLoop_domain {N E : Type}
    (g : (Coord → Option (Tile N E)) → Coord → Nat → N × E × Nat)
    (l : List PortData) (acc res : (Coord → Option (Tile N E)) × Nat × Nat)
    (hok : portLoop g l acc = .ok res) (c : Coord)
    (h : ((res.1) c).isSome) :
    ((acc.1 c).isSome) ∨ ∃ p ∈ l, p.coordinate = c := by
  induction l generalizing acc with
  | nil =>
      simp only [portLoop, Except.ok.injEq] at hok
      subst hok
      exact Or.inl h
  | cons p rest ih =>
      simp only [portLoop] at hok
      cases hd : directionOfString p.direction with
      | none =>
          rw [hd] at hok
          cases hok
      | some dir =>
          rw [hd] at hok
          rcases ih _ hok with h' | ⟨p', hp', hc⟩
          · by_cases hc : c = p.coordinate
            · exact Or.inr ⟨p, List.mem_cons_self p rest, hc.symm⟩
            · left
              simpa [hc] using h'
          · exact Or.inr ⟨p', List.mem_cons_of_mem _ hp', hc⟩

theorem portLoop_untouched {N E : Type}
    (g : (Coord → Option (Tile N E)) → Coord → Nat → N × E × Nat)
    (l : List PortData) (acc res : (Coord → Option (Tile N E)) × Nat × Nat)
    (hok : portLoop g l acc = .ok res) (c : Coord)
    (h : ∀ p ∈ l, p.coordinate ≠ c) :
    res.1 c = acc.1 c := by
  induction l generalizing acc with
  | nil =>
      simp only [portLoop, Except.ok.injEq] at hok
      subst hok
      rfl
  | cons p rest ih =>
      simp only [portLoop] at hok
      cases hd : directionOfString p.direction with
      | none =>
          rw [hd] at hok
          cases hok
      | some dir =>
          rw [hd] at hok
          rw [ih _ hok (fun p' hp' => h p' (List.mem_cons_of_mem _ hp'))]
          have hc : c ≠ p.coordinate := fun hh => h p (List.mem_cons_self p rest) hh.symm
          simp [hc]

theorem waterLoop_preserve {N E : Type}
    (g : (Coord → Option (Tile N E)) → Coord → Nat → N × E × Nat)
    (l : List Coord) (acc : (Coord → Option (Tile N E)) × Nat) (c : Coord)
    (t : Tile N E) (h : acc.1 c = some t) :
    ((waterLoop g l acc).1) c = some t := by
  induction l generalizing acc with
  | nil => exact h
  | cons coord rest ih =>
      simp only [waterLoop]
      by_cases hn : (acc.1 coord).isNone = true
      · rw [if_pos hn]
        apply ih
        have hne : c ≠ coord := by
          intro hh
          rw [← hh, h] at hn
          simp at hn
        simp [hne, h]
      · rw [if_neg hn]
        exact ih _ h

theorem waterLoop_fills {N E : Type}
    (g : (Coord → Option (Tile N E)) → Coord → Nat → N × E × Nat)
    (l : List Coord) (acc : (Coord → Option (Tile N E)) × Nat) (c : Coord)
    (hc : c ∈ l) :
    (((waterLoop g l acc).1) c).isSome := by
  induction l generalizing acc with
  | nil => cases hc
  | cons coord rest ih =>
      simp only [waterLoop]
      rcases List.mem_cons.mp hc with h | h
      · subst h
        by_cases hn : (acc.1 c).isNone = true
        · rw [if_pos hn]
          rw [waterLoop_preserve g rest _ c
            (Tile.water (g acc.1 c acc.2).1 (g acc.1 c acc.2).2.1) (by simp)]
          rfl
        · rw [if_neg hn]
          obtain ⟨t, ht⟩ : ∃ t, acc.1 c = some t := by
            cases hacc : acc.1 c
            · rw [hacc] at hn
              simp at hn
            · exact ⟨_, rfl⟩
          rw [waterLoop_preserve g rest acc c t ht]
          rfl
      · by_cases hn : (acc.1 coord).isNone = true
        · rw [if_pos hn]
          exact ih _ h
        · rw [if_neg hn]
          exact ih _ h

theorem waterLoop_water {N E : Type}
    (g : (Coord → Option (Tile N E)) → Coord → Nat → N × E × Nat)
    (l : List Coord) (acc : (Coord → Option (Tile N E)) × Nat) (c : Coord)
    (hc : c ∈ l) (hnone : acc.1 c = none) :
    ∃ n e, ((waterLoop g l acc).1) c = some (Tile.water n e) := by
  induction l generalizing acc with
  | nil => cases hc
  | cons coord rest ih =>
      simp only [waterLoop]
      rcases List.mem_cons.mp hc with h | h
      · subst h
        rw [if_pos (by simp [hnone])]
        exact ⟨(g acc.1 c acc.2).1, (g acc.1 c acc.2).2.1,
          waterLoop_preserve g rest _ c
            (Tile.water (g acc.1 c acc.2).1 (g acc.1 c acc.2).2.1) (by simp)⟩
      · by_cases hceq : c = coord
        · subst hceq
          rw [if_pos (by simp [hnone])]
          exact ⟨(g acc.1 c acc.2).1, (g acc.1 c acc.2).2.1,
            waterLoop_preserve g rest _ c
              (Tile.water (g acc.1 c acc.2).1 (g acc.1 c acc.2).2.1) (by simp)⟩
        · by_cases hn : (acc.1 coord).isNone = true
          · rw [if_pos hn]
            exact ih _ h (by simp [hceq, hnone])
          · rw [if_neg hn]
            exact ih _ h hnone

theorem waterLoop_domain {N E : Type}
    (g : (Coord → Option (Tile N E)) → Coord → Nat → N × E × Nat)
    (l : List Coord) (acc : (Coord → Option (Tile N E)) × Nat) (c : Coord)
    (h : (((waterLoop g l acc).1) c).isSome) :
    ((acc.1 c).isSome) ∨ c ∈ l := by
  induction l generalizing acc with
  | nil => exact Or.inl h
  | cons coord rest ih =>
      simp only [waterLoop] at h
      by_cases hn : (acc.1 coord).isNone = true
      · rw [if_pos hn] at h
        rcases ih _ h with h' | h'
        · by_cases hceq : c = coord
          · exact Or.inr (by simp [hceq])
          · left
            simpa [hceq] using h'
        · exact Or.inr (List.mem_cons_of_mem _ h')
      · rw [if_neg hn] at h
        rcases ih _ h with h' | h'
        · exact Or.inl h'
        · exact Or.inr (List.mem_cons_of_mem _ h')

theorem water_coords_sumZero : ∀ c ∈ water_coords, sumZero c := by decide

theorem mem_sortTiles (ts : List TileData) (t : TileData) :
    t ∈ sortTiles ts ↔ t ∈ ts :=
  (List.perm_insertionSort tileLe ts).mem_iff

/-- C3: when create_custom_board succeeds, every one of the 18 fixed
outer-ring coordinates is mapped to some tile; each ring coordinate carrying
no caller-supplied land tile or port is mapped to a Water tile; a tile placed
by the land/port passes is never overwritten by the water fill; and every
coordinate of the resulting map has cube components summing to zero when the
caller-supplied coordinates do. Holds for an arbitrary external allocator g. -/
theorem claim3_outer_ring_autofill {N E : Type}
    (g : (Coord → Option (Tile N E)) → Coord → Nat → N × E × Nat)
    (ts : List TileData) (ps : List PortData) (m : Coord → Option (Tile N E))
    (hok : createCustomBoard g ts ps = .ok m)
    (hts : ∀ t ∈ ts, sumZero t.coordinate)
    (hps : ∀ p ∈ ps, sumZero p.coordinate) :
    (∀ c ∈ water_coords, (m c).isSome) ∧
    (∀ c ∈ water_coords, (∀ t ∈ ts, t.coordinate ≠ c) → (∀ p ∈ ps, p.coordinate ≠ c) →
      ∃ n e, m c = some (Tile.water n e)) ∧
    (∀ mid, portLoop g ps ((landPhase g ts).1, (landPhase g ts).2.1, 0) = .ok mid →
      ∀ c t, mid.1 c = some t → m c = some t) ∧
    (∀ c, (m c).isSome → sumZero c) := by
  unfold createCustomBoard at hok
  cases hmid : portLoop g ps ((landPhase g ts).1, (landPhase g ts).2.1, 0) with
  | error e =>
      rw [hmid] at hok
      cases hok
  | ok mid =>
      rw [hmid] at hok
      simp only [Except.ok.injEq] at hok
      subst hok
      have hmidnone : ∀ c, (∀ t ∈ ts, t.coordinate ≠ c) → (∀ p ∈ ps, p.coordinate ≠ c) →
          mid.1 c = none := by
        intro c hts' hps'
        have hport := portLoop_untouched g ps _ mid hmid c hps'
        have hland : ((landPhase g ts).1) c = none := by
          have h1 := landLoop_untouched g (sortTiles ts)
            ((fun _ => none : Coord → Option (Tile N E)), 0, 0) c
            (fun t ht => hts' t ((mem_sortTiles ts t).mp ht))
          exact h1
        rw [hport]
        exact hland
      refine ⟨?_, ?_, ?_, ?_⟩
      · exact fun c hc => waterLoop_fills g water_coords (mid.1, mid.2.1) c hc
      · intro c hc hts' hps'
        exact waterLoop_water g water_coords (mid.1, mid.2.1) c hc (hmidnone c hts' hps')
      · intro mid' hmid' c t hmt
        have hmm : mid = mid' := Except.ok.inj hmid'
        subst hmm
        exact waterLoop_preserve g water_coords (mid.1, mid.2.1) c t hmt
      · intro c hc
        rcases waterLoop_domain g water_coords _ c hc with h' | h'
        · rcases portLoop_domain g ps _ mid hmid c h' with h'' | ⟨p, hp, hpc⟩
          · have h3 := landLoop_domain g (sortTiles ts)
              ((fun _ => none : Coord → Option (Tile N E)), 0, 0) c h''
            rcases h3 with h''' | ⟨t, ht, htc⟩
            · simp at h'''
            · exact htc ▸ hts t ((mem_sortTiles ts t).mp ht)
          · exact hpc ▸ hps p hp
        · exact water_coords_sumZero c h'

/-- C3 witness: the empty descriptor set; the ring coordinate (3, -3, 0)
ends up occupied. -/
theorem claim3_outer_ring_autofill_witness :
    (∀ t ∈ ([] : List TileData), sumZero t.coordinate) ∧
    ((waterLoop gU water_coords
        ((landPhase gU []).1, (landPhase gU []).2.1)).1 (3, -3, 0)).isSome := by
  refine ⟨by simp, ?_⟩
  have h := claim3_outer_ring_autofill gU [] [] _ rfl (by simp) (by simp)
  exact h.1 (3, -3, 0) (by decide)

theorem coordLe_total (a b : Coord) : coordLe a b ∨ coordLe b a := by
  unfold coordLe
  omega

theorem coordLe_trans (a b c : Coord) (h1 : coordLe a b) (h2 : coordLe b c) :
    coordLe a c := by
  unfold coordLe at h1 h2 ⊢
  omega

theorem coordLe_antisymm (a b : Coord) (h1 : coordLe a b) (h2 : coordLe b a) :
    a = b := by
  obtain ⟨a1, a2, a3⟩ := a
  obtain ⟨b1, b2, b3⟩ := b
  unfold coordLe at h1 h2
  simp only [Prod.mk.injEq]
  dsimp only at h1 h2
  omega

/-- Sorting by the (distinct) coordinate keys is order-insensitive: two
permuted descriptor lists sort to the same list. -/
theorem sortTiles_eq_of_perm (t1 t2 : List TileData) (hperm : t1.Perm t2)
    (hnd : (t1.map (fun t => t.coordinate)).Nodup) :
    sortTiles t1 = sortTiles t2 := by
  haveI : IsTotal TileData tileLe := ⟨fun a b => coordLe_total a.coordinate b.coordinate⟩
  haveI : IsTrans TileData tileLe :=
    ⟨fun a b c hab hbc => coordLe_trans a.coordinate b.coordinate c.coordinate hab hbc⟩
  have hs1 : (sortTiles t1).Sorted tileLe := List.sorted_insertionSort tileLe t1
  have hs2 : (sortTiles t2).Sorted tileLe := List.sorted_insertionSort tileLe t2
  have hnd1 : ((sortTiles t1).map (fun t => t.coordinate)).Nodup :=
    (((List.perm_insertionSort tileLe t1).map (fun t => t.coordinate)).nodup_iff).mpr hnd
  have hnd2' : (t2.map (fun t => t.coordinate)).Nodup :=
    ((hperm.map (fun t => t.coordinate)).nodup_iff).mp hnd
  have hnd2 : ((sortTiles t2).map (fun t => t.coordinate)).Nodup :=
    (((List.perm_insertionSort tileLe t2).map (fun t => t.coordinate)).nodup_iff).mpr hnd2'
  haveI : IsAntisymm TileData
      (fun a b => tileLe a b ∧ a.coordinate ≠ b.coordinate) :=
    ⟨fun a b h1 h2 => absurd (coordLe_antisymm _ _ h1.1 h2.1) h1.2⟩
  have hp1 : (sortTiles t1).Pairwise (fun a b => a.coordinate ≠ b.coordinate) :=
    List.pairwise_map.mp hnd1
  have hp2 : (sortTiles t2).Pairwise (fun a b => a.coordinate ≠ b.coordinate) :=
    List.pairwise_map.mp hnd2
  have hs1' : (sortTiles t1).Sorted
      (fun a b => tileLe a b ∧ a.coordinate ≠ b.coordinate) := hs1.and hp1
  have hs2' : (sortTiles t2).Sorted
      (fun a b => tileLe a b ∧ a.coordinate ≠ b.coordinate) := hs2.and hp2
  have hperm' : (sortTiles t1).Perm (sortTiles t2) :=
    ((List.perm_insertionSort tileLe t1).trans hperm).trans
      (List.perm_insertionSort tileLe t2).symm
  exact List.eq_of_perm_of_sorted hperm' hs1' hs2'

/-- C4: create_custom_board is invariant under permutation of a land-tile
descriptor list with distinct coordinates, ports held fixed: the two runs
produce identical Coordinate→Tile maps (same vertex/edge identifiers, for an
arbitrary allocator g), because descriptors are sorted by coordinate first. -/
theorem claim4_permutation_invariance {N E : Type}
    (g : (Coord → Option (Tile N E)) → Coord → Nat → N × E × Nat)
    (t1 t2 : List TileData) (ps : List PortData)
    (hperm : t1.Perm t2) (hnd : (t1.map (fun t => t.coordinate)).Nodup) :
    createCustomBoard g t1 ps = createCustomBoard g t2 ps := by
  unfold createCustomBoard landPhase
  rw [sortTiles_eq_of_perm t1 t2 hperm hnd]

/-- C4 witness: a two-descriptor list and its reversal. -/
theorem claim4_permutation_invariance_witness :
    (([⟨(0, 0, 0), some "WOOD", some 5⟩, ⟨(1, 0, -1), none, none⟩] : List TileData).Perm
      [⟨(1, 0, -1), none, none⟩, ⟨(0, 0, 0), some "WOOD", some 5⟩]) ∧
    (([⟨(0, 0, 0), some "WOOD", some 5⟩,
       ⟨(1, 0, -1), none, none⟩] : List TileData).map (fun t => t.coordinate)).Nodup ∧
    createCustomBoard gU [⟨(0, 0, 0), some "WOOD", some 5⟩, ⟨(1, 0, -1), none, none⟩] []
      = createCustomBoard gU
          [⟨(1, 0, -1), none, none⟩, ⟨(0, 0, 0), some "WOOD", some 5⟩] [] := by
  have hperm : ([⟨(0, 0, 0), some "WOOD", some 5⟩,
      ⟨(1, 0, -1), none, none⟩] : List TileData).Perm
      [⟨(1, 0, -1), none, none⟩, ⟨(0, 0, 0), some "WOOD", some 5⟩] :=
    List.Perm.swap _ _ _
  have hnd : (([⟨(0, 0, 0), some "WOOD", some 5⟩,
      ⟨(1, 0, -1), none, none⟩] : List TileData).map (fun t => t.coordinate)).Nodup := by
    decide
  exact ⟨hperm, hnd, claim4_permutation_invariance gU _ _ [] hperm hnd⟩

/-- Modelled from the spec: the external rules engine's action-kind
enumeration ActionType. The kinds advisor_api.py names explicitly are listed
together with the remaining kinds of the engine's tagged variant (the spec's
"build settlement/city/road, buy/play development card, maritime trade, move
robber, end turn, …"), so kinds with no explicit explanation template are
represented. -/
inductive ActionType
  | ROLL
  | MOVE_ROBBER
  | DISCARD
  | BUILD_ROAD
  | BUILD_SETTLEMENT
  | BUILD_CITY
  | BUY_DEVELOPMENT_CARD
  | PLAY_KNIGHT_CARD
  | PLAY_YEAR_OF_PLENTY
  | PLAY_MONOPOLY
  | PLAY_ROAD_BUILDING
  | MARITIME_TRADE
  | OFFER_TRADE
  | ACCEPT_TRADE
  | REJECT_TRADE
  | CONFIRM_TRADE
  | CANCEL_TRADE
  | END_TURN
deriving DecidableEq, Repr

/-- The `.name` attribute of an ActionType member. -/
def actionTypeName : ActionType → String
  | .ROLL => "ROLL"
  | .MOVE_ROBBER => "MOVE_ROBBER"
  | .DISCARD => "DISCARD"
  | .BUILD_ROAD => "BUILD_ROAD"
  | .BUILD_SETTLEMENT => "BUILD_SETTLEMENT"
  | .BUILD_CITY => "BUILD_CITY"
  | .BUY_DEVELOPMENT_CARD => "BUY_DEVELOPMENT_CARD"
  | .PLAY_KNIGHT_CARD => "PLAY_KNIGHT_CARD"
  | .PLAY_YEAR_OF_PLENTY => "PLAY_YEAR_OF_PLENTY"
  | .PLAY_MONOPOLY => "PLAY_MONOPOLY"
  | .PLAY_ROAD_BUILDING => "PLAY_ROAD_BUILDING"
  | .MARITIME_TRADE => "MARITIME_TRADE"
  | .OFFER_TRADE => "OFFER_TRADE"
  | .ACCEPT_TRADE => "ACCEPT_TRADE"
  | .REJECT_TRADE => "REJECT_TRADE"
  | .CONFIRM_TRADE => "CONFIRM_TRADE"
  | .CANCEL_TRADE => "CANCEL_TRADE"
  | .END_TURN => "END_TURN"

/-- Python `str()` of an ActionType member (used by the default f-string
branch of generate_explanation). -/
def actionTypeStr (t : ActionType) : String :=
  "ActionType." ++ actionTypeName t

/-- Python values as they occur in action payloads: None, ints, strings and
tuples (modelling the untyped per-kind payload). -/
inductive PyVal
  | pynone
  | pyint (n : Int)
  | pystr (s : String)
  | pytup (xs : List PyVal)

mutual

/-- Python str() of a payload as interpolated by an f-string (nested tuple
elements are rendered recursively; quoting of nested strings is immaterial
to the properties proved here). -/
def pyStr : PyVal → String
  | .pynone => "None"
  | .pyint n => toString n
  | .pystr s => s
  | .pytup xs => "(" ++ pyStrList xs ++ ")"

def pyStrList : List PyVal → String
  | [] => ""
  | [x] => pyStr x
  | x :: xs => pyStr x ++ ", " ++ pyStrList xs

end

/-- Python truthiness of a payload value. -/
def pyTruthy : PyVal → Bool
  | .pynone => false
  | .pyint n => n != 0
  | .pystr s => s != ""
  | .pytup xs => !xs.isEmpty

/-- Python len(); raises TypeError (Except.error) on None and int. -/
def pyLen : PyVal → Except String Int
  | .pystr s => .ok s.length
  | .pytup xs => .ok xs.length
  | .pynone => .error "TypeError: object of type NoneType has no len()"
  | .pyint _ => .error "TypeError: object of type int has no len()"

/-- Python subscription value[i] with negative-index support; raises
IndexError out of range and TypeError on non-sequences. -/
def pyIndex (v : PyVal) (i : Int) : Except String PyVal :=
  match v with
  | .pytup xs =>
      let j := if i < 0 then i + xs.length else i
      if h : 0 ≤ j ∧ j.toNat < xs.length then .ok (xs.get ⟨j.toNat, h.2⟩)
      else .error "IndexError: tuple index out of range"
  | .pystr s =>
      let cs := s.data
      let j := if i < 0 then i + cs.length else i
      if h : 0 ≤ j ∧ j.toNat < cs.length then .ok (.pystr (String.mk [cs.get ⟨j.toNat, h.2⟩]))
      else .error "IndexError: string index out of range"
  | _ => .error "TypeError: object is not subscriptable"

/-- One Action namedtuple: (color, action_type, value). -/
structure ActionR where
  color : Color
  action_type : ActionType
  value : PyVal

/-- The slice of game.state the advisor endpoint reads: the seated colors,
the player_state dict and the cached playable_actions list. -/
structure AdvState where
  colors : List Color
  playerState : Nat → PSField → Int
  playable_actions : List ActionR

/-- calculate_victory_points of advisor_api.py: for each seated color, the
ACTUAL_VICTORY_POINTS entry keyed by color.value (dict as ordered list). -/
def calculateVictoryPoints (st : AdvState) : List (String × Int) :=
  st.colors.map
    (fun c => (colorValue c, st.playerState (colorToIndex c) .ACTUAL_VICTORY_POINTS))

/-- format_action of advisor_api.py. -/
def formatAction (a : ActionR) : String :=
  match a.value with
  | .pynone => actionTypeName a.action_type
  | v => actionTypeName a.action_type ++ ": " ++ pyStr v

/-- generate_explanation of advisor_api.py: the if/elif chain over action
kinds; the two branches that subscript the payload can raise (Except.error)
exactly where CPython would raise on len()/indexing. -/
def generate_explanation (action : ActionR) (_game : AdvState) (_advised_color : Color) :
    Except String String :=
  let action_type := action.action_type
  let value := action.value
  if action_type = .END_TURN then
    .ok "End your turn. No better moves available with current resources."
  else if action_type = .BUILD_SETTLEMENT then
    .ok ("Build a settlement at node " ++ pyStr value ++
      ". This expands your resource production.")
  else if action_type = .BUILD_CITY then
    .ok ("Upgrade settlement at node " ++ pyStr value ++
      " to a city. This doubles resource production from that location.")
  else if action_type = .BUILD_ROAD then
    .ok ("Build a road at edge " ++ pyStr value ++
      ". This helps connect settlements and work toward longest road.")
  else if action_type = .BUY_DEVELOPMENT_CARD then
    .ok "Buy a development card. Development cards provide powerful abilities and potential victory points."
  else if action_type = .PLAY_KNIGHT_CARD then
    .ok "Play a knight card. This allows you to move the robber and steal a resource."
  else if action_type = .MARITIME_TRADE then
    if pyTruthy value then do
      let lv0 ← pyLen value
      let give_resource ← if lv0 > 0 then pyIndex value 0 else pure (PyVal.pystr "resources")
      let lv1 ← pyLen value
      let get_resource ← if lv1 > 1 then pyIndex value (-1) else pure (PyVal.pystr "resources")
      pure ("Trade " ++ pyStr give_resource ++ " for " ++ pyStr get_resource ++
        " using a port or bank trade.")
    else .ok "Make a maritime/bank trade to get the resources you need."
  else if action_type = .MOVE_ROBBER then
    if pyTruthy value then do
      let lv0 ← pyLen value
      let coord ← if lv0 > 0 then pyIndex value 0 else pure (PyVal.pystr "a tile")
      pure ("Move the robber to " ++ pyStr coord ++
        ". This blocks resource production and lets you steal.")
    else .ok "Move the robber to block an opponent\x27s production."
  else if action_type = .PLAY_ROAD_BUILDING then
    .ok "Play Road Building card to build two roads for free."
  else if action_type = .PLAY_YEAR_OF_PLENTY then
    .ok ("Play Year of Plenty to get free resources: " ++ pyStr value)
  else if action_type = .PLAY_MONOPOLY then
    .ok ("Play Monopoly to take all " ++ pyStr value ++ " from other players.")
  else
    .ok ("Recommended action: " ++ actionTypeStr action_type)

/-- The JSON body fields of a successful advisor response. -/
structure AdvisorResponse where
  success : Bool
  action_type : String
  action_value : PyVal
  explanation : String
  victory_points : List (String × Int)
  all_actions : List String

/-- The success path of advisor_endpoint after state reconstruction: empty
cached playable_actions yields the fixed NO_ACTIONS response; otherwise the
external decision procedure (parameter decide_fn, `advised_player.decide`)
chooses among the playable actions and the response is assembled from it. -/
def advisorEndpointCore
    (decide_fn : AdvState → List ActionR → ActionR)
    (st : AdvState) (advised_color : Color) : Except String AdvisorResponse :=
  let playable_actions := st.playable_actions
  if playable_actions.length = 0 then
    .ok { success := true
          action_type := "NO_ACTIONS"
          action_value := .pynone
          explanation := "No legal actions available in this state."
          victory_points := calculateVictoryPoints st
          all_actions := [] }
  else
    let recommended_action := decide_fn st playable_actions
    let action_type := actionTypeName recommended_action.action_type
    match generate_explanation recommended_action st advised_color with
    | .ok explanation =>
        .ok { success := true
              action_type := action_type
              action_value := recommended_action.value
              explanation := explanation
              victory_points := calculateVictoryPoints st
              all_actions := playable_actions.map formatAction }
    | .error e => .error e

/-- C7: when the cached legal-action list is empty, the endpoint returns the
fixed NO_ACTIONS success response (null action value, fixed explanation,
victory-point snapshot, empty all-actions list), and the result does not
depend on the external decision procedure, which is never consulted. -/
theorem claim7_empty_actions_sentinel
    (d1 d2 : AdvState → List ActionR → ActionR) (st : AdvState) (c : Color)
    (h : st.playable_actions = []) :
    advisorEndpointCore d1 st c
      = .ok { success := true
              action_type := "NO_ACTIONS"
              action_value := .pynone
              explanation := "No legal actions available in this state."
              victory_points := calculateVictoryPoints st
              all_actions := [] } ∧
    advisorEndpointCore d1 st c = advisorEndpointCore d2 st c := by
  constructor <;> simp [advisorEndpointCore, h]

/-- C7 witness: a concrete reconstructed 2-player state with an empty
playable-actions cache and two different decision procedures. -/
theorem claim7_empty_actions_sentinel_witness :
    (AdvState.mk [.RED, .BLUE] S0.playerState []).playable_actions = [] ∧
    advisorEndpointCore (fun _ l => l.headD ⟨.RED, .END_TURN, .pynone⟩)
        (AdvState.mk [.RED, .BLUE] S0.playerState []) .RED
      = .ok { success := true
              action_type := "NO_ACTIONS"
              action_value := .pynone
              explanation := "No legal actions available in this state."
              victory_points :=
                calculateVictoryPoints (AdvState.mk [.RED, .BLUE] S0.playerState [])
              all_actions := [] } := by
  refine ⟨rfl, ?_⟩
  exact (claim7_empty_actions_sentinel
    (fun _ l => l.headD ⟨.RED, .END_TURN, .pynone⟩)
    (fun _ _ => ⟨.BLUE, .ROLL, .pynone⟩)
    (AdvState.mk [.RED, .BLUE] S0.playerState []) .RED rfl).1

theorem exceptBind_ok {ε α β : Type} (a : α) (f : α → Except ε β) :
    (Except.ok a >>= f) = f a := rfl

theorem exceptPure {ε α : Type} (a : α) : (pure a : Except ε α) = Except.ok a := rfl

/-- A payload that supports len() and subscription: a tuple or a string. -/
def pySized (v : PyVal) : Prop :=
  (∃ xs, v = .pytup xs) ∨ (∃ s, v = .pystr s)

theorem len_append_pos (s t : String) (h : 0 < s.length) : 0 < (s ++ t).length := by
  rw [String.length_append]
  omega

theorem fallback_len (t : ActionType) :
    0 < ("Recommended action: " ++ actionTypeStr t).length :=
  len_append_pos _ _ (by decide)

theorem pyLen_of_sized (v : PyVal) (hs : pySized v) :
    ∃ n : Int, pyLen v = .ok n ∧ (pyTruthy v = true → 0 < n) := by
  rcases hs with ⟨xs, rfl⟩ | ⟨s, rfl⟩
  · refine ⟨xs.length, rfl, fun ht => ?_⟩
    cases xs with
    | nil => simp [pyTruthy] at ht
    | cons x rest => simp
  · refine ⟨s.length, rfl, fun ht => ?_⟩
    obtain ⟨cs⟩ := s
    cases cs with
    | nil => simp [pyTruthy] at ht
    | cons ch rest => simp [String.length]

theorem pyIndex_zero_of_truthy (v : PyVal) (hs : pySized v) (ht : pyTruthy v = true) :
    ∃ w, pyIndex v 0 = .ok w := by
  rcases hs with ⟨xs, rfl⟩ | ⟨s, rfl⟩
  · cases xs with
    | nil => simp [pyTruthy] at ht
    | cons x rest => exact ⟨x, by simp [pyIndex]⟩
  · obtain ⟨cs⟩ := s
    cases cs with
    | nil => simp [pyTruthy] at ht
    | cons ch rest =>
        refine ⟨.pystr (String.mk [ch]), ?_⟩
        simp [pyIndex, String.length]

theorem pyIndex_neg_one_of_long (v : PyVal) (hs : pySized v) (n : Int)
    (hn : pyLen v = .ok n) (h1 : 1 < n) :
    ∃ w, pyIndex v (-1) = .ok w := by
  rcases hs with ⟨xs, rfl⟩ | ⟨s, rfl⟩
  · have hxl : n = (xs.length : Int) := by
      simp [pyLen] at hn
      omega
    subst hxl
    have hcond : (0:Int) ≤ (if (-1:Int) < 0 then -1 + (xs.length : Int) else -1) ∧
        ((if (-1:Int) < 0 then -1 + (xs.length : Int) else -1)).toNat < xs.length := by
      constructor <;> simp <;> omega
    have hval : pyIndex (.pytup xs) (-1)
        = .ok (xs.get ⟨((if (-1:Int) < 0 then -1 + (xs.length : Int) else -1)).toNat,
            hcond.2⟩) := by
      simp only [pyIndex]
      rw [dif_pos hcond]
    exact ⟨_, hval⟩
  · have hxl : n = (s.length : Int) := by
      simp [pyLen] at hn
      omega
    subst hxl
    have hsl : s.length = s.data.length := rfl
    have hcond : (0:Int) ≤ (if (-1:Int) < 0 then -1 + (s.data.length : Int) else -1) ∧
        ((if (-1:Int) < 0 then -1 + (s.data.length : Int) else -1)).toNat
          < s.data.length := by
      rw [hsl] at h1
      constructor <;> simp <;> omega
    have hval : pyIndex (.pystr s) (-1)
        = .ok (.pystr (String.mk
            [s.data.get ⟨((if (-1:Int) < 0 then -1 + (s.data.length : Int) else -1)).toNat,
              hcond.2⟩])) := by
      simp only [pyIndex]
      rw [dif_pos hcond]
    exact ⟨_, hval⟩

/-- C8 counterexample: a MARITIME_TRADE action whose payload is the int 1 is
truthy, so the branch evaluates len(value), which raises TypeError; no string
is returned for that action. -/
theorem claim8_counterexample :
    generate_explanation ⟨.RED, .MARITIME_TRADE, .pyint 1⟩
        (AdvState.mk [] S0.playerState []) .RED
      = .error "TypeError: object of type int has no len()" := rfl

/-- C8 (amended): generate_explanation returns a non-empty string for every
action of every kind, including kinds with no explicit template and a None
payload, provided that a truthy payload of a MARITIME_TRADE or MOVE_ROBBER
action is a sequence (tuple or string); with a truthy non-sequence payload
(e.g. a nonzero int) those two branches raise instead. -/
theorem claim8_explanation_total (a : ActionR) (st : AdvState) (c : Color)
    (hguard : (a.action_type = .MARITIME_TRADE ∨ a.action_type = .MOVE_ROBBER) →
      pyTruthy a.value = true → pySized a.value) :
    ∃ s, generate_explanation a st c = .ok s ∧ 0 < s.length := by
  obtain ⟨col, ty, v⟩ := a
  cases ty with
  | ROLL => exact ⟨_, rfl, fallback_len _⟩
  | DISCARD => exact ⟨_, rfl, fallback_len _⟩
  | OFFER_TRADE => exact ⟨_, rfl, fallback_len _⟩
  | ACCEPT_TRADE => exact ⟨_, rfl, fallback_len _⟩
  | REJECT_TRADE => exact ⟨_, rfl, fallback_len _⟩
  | CONFIRM_TRADE => exact ⟨_, rfl, fallback_len _⟩
  | CANCEL_TRADE => exact ⟨_, rfl, fallback_len _⟩
  | END_TURN => exact ⟨_, rfl, by decide⟩
  | BUY_DEVELOPMENT_CARD => exact ⟨_, rfl, by decide⟩
  | PLAY_KNIGHT_CARD => exact ⟨_, rfl, by decide⟩
  | PLAY_ROAD_BUILDING => exact ⟨_, rfl, by decide⟩
  | BUILD_SETTLEMENT =>
      exact ⟨_, rfl, len_append_pos _ _ (len_append_pos _ _ (by decide))⟩
  | BUILD_CITY =>
      exact ⟨_, rfl, len_append_pos _ _ (len_append_pos _ _ (by decide))⟩
  | BUILD_ROAD =>
      exact ⟨_, rfl, len_append_pos _ _ (len_append_pos _ _ (by decide))⟩
  | PLAY_YEAR_OF_PLENTY =>
      exact ⟨_, rfl, len_append_pos _ _ (by decide)⟩
  | PLAY_MONOPOLY =>
      exact ⟨_, rfl, len_append_pos _ _ (len_append_pos _ _ (by decide))⟩
  | MARITIME_TRADE =>
      by_cases ht : pyTruthy v = true
      · have hs := hguard (Or.inl rfl) ht
        obtain ⟨n, hn, hp⟩ := pyLen_of_sized v hs
        obtain ⟨w0, hw0⟩ := pyIndex_zero_of_truthy v hs ht
        have hp' := hp ht
        by_cases h1 : 1 < n
        · obtain ⟨w1, hw1⟩ := pyIndex_neg_one_of_long v hs n hn h1
          have heq : generate_explanation ⟨col, .MARITIME_TRADE, v⟩ st c
              = .ok ("Trade " ++ pyStr w0 ++ " for " ++ pyStr w1 ++
                  " using a port or bank trade.") := by
            simp [generate_explanation, ht, hn, exceptBind_ok, exceptPure, hp', h1, hw0, hw1]
          exact ⟨_, heq,
            len_append_pos _ _ (len_append_pos _ _ (len_append_pos _ _
              (len_append_pos _ _ (by decide))))⟩
        · have heq : generate_explanation ⟨col, .MARITIME_TRADE, v⟩ st c
              = .ok ("Trade " ++ pyStr w0 ++ " for " ++ pyStr (.pystr "resources") ++
                  " using a port or bank trade.") := by
            simp [generate_explanation, ht, hn, exceptBind_ok, exceptPure, hp', h1, hw0]
          exact ⟨_, heq,
            len_append_pos _ _ (len_append_pos _ _ (len_append_pos _ _
              (len_append_pos _ _ (by decide))))⟩
      · have heq : generate_explanation ⟨col, .MARITIME_TRADE, v⟩ st c
            = .ok "Make a maritime/bank trade to get the resources you need." := by
          simp [generate_explanation, ht]
        exact ⟨_, heq, by decide⟩
  | MOVE_ROBBER =>
      by_cases ht : pyTruthy v = true
      · have hs := hguard (Or.inr rfl) ht
        obtain ⟨n, hn, hp⟩ := pyLen_of_sized v hs
        obtain ⟨w0, hw0⟩ := pyIndex_zero_of_truthy v hs ht
        have hp' := hp ht
        have heq : generate_explanation ⟨col, .MOVE_ROBBER, v⟩ st c
            = .ok ("Move the robber to " ++ pyStr w0 ++
                ". This blocks resource production and lets you steal.") := by
          simp [generate_explanation, ht, hn, exceptBind_ok, exceptPure, hp', hw0]
        exact ⟨_, heq, len_append_pos _ _ (len_append_pos _ _ (by decide))⟩
      · have heq : generate_explanation ⟨col, .MOVE_ROBBER, v⟩ st c
            = .ok "Move the robber to block an opponent\x27s production." := by
          simp [generate_explanation, ht]
        exact ⟨_, heq, by decide⟩

/-- C8 witness: a default-kind action with a None payload, and a trade whose
payload is a 2-tuple of resource strings. -/
theorem claim8_explanation_total_witness :
    (generate_explanation ⟨.RED, .ROLL, .pynone⟩
        (AdvState.mk [] S0.playerState []) .RED).isOk = true ∧
    (generate_explanation
        ⟨.RED, .MARITIME_TRADE, .pytup [.pystr "WOOD", .pystr "ORE"]⟩
        (AdvState.mk [] S0.playerState []) .RED).isOk = true := by
  obtain ⟨s1, h1, _⟩ := claim8_explanation_total ⟨.RED, .ROLL, .pynone⟩
    (AdvState.mk [] S0.playerState []) .RED (by intro h; cases h <;> simp_all)
  obtain ⟨s2, h2, _⟩ := claim8_explanation_total
    ⟨.RED, .MARITIME_TRADE, .pytup [.pystr "WOOD", .pystr "ORE"]⟩
    (AdvState.mk [] S0.playerState []) .RED
    (fun _ _ => Or.inl ⟨[.pystr "WOOD", .pystr "ORE"], rfl⟩)
  rw [h1, h2]
  exact ⟨rfl, rfl⟩

end Advisor
